import Mathlib

set_option maxHeartbeats 1000000

/-- Splits a list of characters on the slash character, accumulating the
current segment in reverse. Models the slash-delimited segment
decomposition that the routing tree applies to both patterns and request
paths. -/
def splitAux : List Char → List Char → List String
  | [], acc => [String.mk acc.reverse]
  | c :: cs, acc =>
    if c = '/' then String.mk acc.reverse :: splitAux cs []
    else splitAux cs (c :: acc)

/-- Splits a path string into its slash-delimited segments. -/
def splitPath (s : String) : List String :=
  splitAux s.data []

/-- A pattern segment: literal text, or a named parameter written with the
colon sigil in the pattern string. -/
inductive Seg where
  | lit (text : String)
  | param (name : String)
  deriving DecidableEq

/-- Parses one pattern segment: a leading colon marks a parameter. -/
def parseSeg (s : String) : Seg :=
  match s.data with
  | ':' :: rest => Seg.param (String.mk rest)
  | _ => Seg.lit s

/-- Parses a route pattern into segments. -/
def parsePath (s : String) : List Seg :=
  (splitPath s).map parseSeg

/-- Modelled from the spec: the per-method path matcher (the matchit
radix-tree crate used by Router, whose source is not part of this
repository) is represented extensionally by the list of registered
(pattern, controller) pairs in registration order. -/
abbrev Matcher := List (String × String)

/-- Modelled from the spec: a new pattern conflicts with a registered one
when the two are indistinguishable segment by segment - the same literal
where both are literal, and parameter segments aligned with parameter
segments. Two parameter segments at the same position conflict as soon as
they meet (even when their names differ), since a node has at most one
parameter child. -/
def conflictsWith : List Seg → List Seg → Bool
  | [], [] => true
  | Seg.lit a :: p, Seg.lit b :: q => a == b && conflictsWith p q
  | Seg.param a :: p, Seg.param b :: q => !(a == b) || conflictsWith p q
  | _, _ => false

/-- The insert-time conflict error of the routing tree; it carries the
previously registered conflicting route pattern (and nothing else),
modelling matchit InsertError. -/
inductive InsertError where
  | conflict (withRoute : String)
  deriving DecidableEq

/-- Finds the first previously registered route whose pattern conflicts
with the given segment list. -/
def findConflict (segs : List Seg) : Matcher → Option (String × String)
  | [] => none
  | e :: es =>
    if conflictsWith segs (parsePath e.1) then some e else findConflict segs es

/-- Modelled from the spec: inserting a pattern fails when it conflicts
with a previously registered pattern, otherwise the route is appended. -/
def Matcher.insert (m : Matcher) (pat : String) (controller : String) :
    Except InsertError Matcher :=
  match findConflict (parsePath pat) m with
  | some e => Except.error (InsertError.conflict e.1)
  | none => Except.ok (m ++ [(pat, controller)])

/-- Modelled from the spec: matches pattern segments against path segments;
a parameter segment consumes exactly one path segment and binds it to the
parameter name, in order of appearance. -/
def matchSegs : List Seg → List String → Option (List (String × String))
  | [], [] => some []
  | Seg.lit a :: p, s :: ss => if a == s then matchSegs p ss else none
  | Seg.param n :: p, s :: ss => (matchSegs p ss).map (fun ps => (n, s) :: ps)
  | _, _ => none

/-- Modelled from the spec: a pattern beats another pattern (both matching
the same path) when, at the first position where their shapes diverge, it
has a literal segment and the other a parameter segment. -/
def beats : List Seg → List Seg → Bool
  | Seg.lit _ :: p, Seg.lit _ :: q => beats p q
  | Seg.lit _ :: _, Seg.param _ :: _ => true
  | Seg.param _ :: p, Seg.param _ :: q => beats p q
  | _, _ => false

/-- Collects every registered route matching the given path segments. -/
def collectMatches (segs : List String) :
    Matcher → List (String × String × List (String × String))
  | [] => []
  | e :: es =>
    match matchSegs (parsePath e.1) segs with
    | some ps => (e.1, e.2, ps) :: collectMatches segs es
    | none => collectMatches segs es

/-- Picks the highest-priority matching route: literal segments win over
parameter segments at the earliest divergence. -/
def pickBest : String × String × List (String × String) →
    List (String × String × List (String × String)) →
    String × String × List (String × String)
  | b, [] => b
  | b, c :: cs => pickBest (if beats (parsePath c.1) (parsePath b.1) then c else b) cs

/-- Modelled from the spec: path lookup. Returns the controller bound to
the best-matching registered pattern together with the captured
parameters, preferring literal segments over parameter segments. Models
the at method of the matchit tree. -/
def Matcher.lookup (m : Matcher) (path : String) :
    Option (String × List (String × String)) :=
  match collectMatches (splitPath path) m with
  | [] => none
  | c :: cs =>
    let b := pickBest c cs
    some (b.2.1, b.2.2)

/-- Structural equality of patterns: same shape at every segment position -
equal literals where both are literal, and parameter segments aligned
with parameter segments (names may differ). -/
def structEq : List Seg → List Seg → Bool
  | [], [] => true
  | Seg.lit a :: p, Seg.lit b :: q => a == b && structEq p q
  | Seg.param _ :: p, Seg.param _ :: q => structEq p q
  | _, _ => false

/-- HTTP status codes lie in the range 100-999: the invariant of the http
crate StatusCode type, which every status a handler or the router can
supply carries. -/
abbrev StatusCode := {n : Nat // 100 ≤ n ∧ n ≤ 999}

/-- Models http StatusCode NOT_FOUND. -/
def NOT_FOUND : StatusCode := ⟨404, by decide⟩

/-- Models http StatusCode METHOD_NOT_ALLOWED. -/
def METHOD_NOT_ALLOWED : StatusCode := ⟨405, by decide⟩

/-- Models http StatusCode NOT_IMPLEMENTED. -/
def NOT_IMPLEMENTED : StatusCode := ⟨501, by decide⟩

/-- A header map, modelling http HeaderMap as a name-value association
list. -/
abbrev HeaderMap := List (String × String)

/-- Acceptable character of a header value, following the byte check of
the http crate (HeaderValue parsing): horizontal tab, or a byte that is
at least 32 and not 127. On characters this coincides with the byte-level
check on the UTF-8 encoding. -/
def isValidHeaderValueChar (c : Char) : Bool :=
  c.toNat == 9 || (decide (32 ≤ c.toNat) && !(c.toNat == 127))

/-- Validity of a whole header value string. -/
def isValidHeaderValueStr (s : String) : Bool :=
  s.data.all isValidHeaderValueChar

/-- Models http HeaderMap insert: replaces the value registered under the
name when present (removing further duplicates of that name), appends the
entry otherwise. -/
def insertHeader (n v : String) : HeaderMap → HeaderMap
  | [] => [(n, v)]
  | e :: es =>
    if e.1 == n then (n, v) :: es.filter (fun x => !(x.1 == n))
    else e :: insertHeader n v es

/-- Models HttpResponse from src/src/response.rs. -/
structure HttpResponse where
  status : StatusCode
  headers : HeaderMap
  body : String
  deriving DecidableEq

/-- Models HttpResponse::new. -/
def HttpResponse.new (status : StatusCode) (body : String) : HttpResponse :=
  ⟨status, [], body⟩

/-- Models HttpResponse::add_header from src/src/response.rs: parses the
value string as a header value; on success inserts it, on failure leaves
the response unchanged and reports nothing. -/
def HttpResponse.add_header (r : HttpResponse) (name : String) (value : String) :
    HttpResponse :=
  if isValidHeaderValueStr value then
    { r with headers := insertHeader name value r.headers }
  else r

/-- Models the request URI; only its path component is consumed by the
router, the whole value is forwarded to handlers. -/
structure Uri where
  path : String
  deriving DecidableEq

/-- An HTTP method as its canonical token string, e.g. "GET", modelling
the http crate Method type. -/
abbrev Method := String

/-- Models the incoming http Request with byte-vector body. -/
structure Request where
  uri : Uri
  method : Method
  headers : HeaderMap
  body : String

/-- Models HttpRequest from src/src/request.rs: the original request parts
plus the captured path parameters. -/
structure HttpRequest where
  uri : Uri
  method : Method
  headers : HeaderMap
  params : List (String × String)
  body : String

/-- Models the boxed HttpHandler trait object from src/src/handler.rs: a
function from enriched request to response. -/
abbrev Handler := HttpRequest → HttpResponse

/-- Models the outgoing http Response with byte-vector body. -/
structure Response where
  status : StatusCode
  headers : HeaderMap
  body : String
  deriving DecidableEq

/-- Models the fallible part of the response builder used by the From
conversion in src/src/response.rs: building fails unless the status code
lies in the valid range (which the StatusCode type already guarantees). -/
def buildResponse (code : Nat) (headers : HeaderMap) (body : String) :
    Option Response :=
  if h : 100 ≤ code ∧ code ≤ 999 then some ⟨⟨code, h⟩, headers, body⟩ else none

/-- Models the From conversion of HttpResponse into http Response from
src/src/response.rs; the getD default stands for the panic of the
unwrap, proved unreachable below. -/
def intoResponse (r : HttpResponse) : Response :=
  (buildResponse r.status.val r.headers r.body).getD ⟨⟨500, by decide⟩, [], ""⟩

/-- Models Endpoint from src/src/config.rs, with the method already
canonicalized by the configuration deserializer. -/
structure Endpoint where
  method : Method
  path : String
  controller : String
  description : String

/-- Models Config from src/src/config.rs. -/
structure Config where
  endpoints : List Endpoint

/-- Models RouterError from src/src/error.rs. The Io and Json variants
arise only while loading the configuration file, which happens before the
modelled core runs; their payloads are irrelevant here. -/
inductive RouterError where
  | io
  | json
  | matchIt (e : InsertError)
  deriving DecidableEq

/-- The per-method route trees, modelling the HashMap from methods to
matchit trees inside Router; the association list fixes one deterministic
iteration order for a given router value. -/
abbrev Trees := List (Method × Matcher)

/-- Association lookup modelling HashMap get on the per-method trees. -/
def findTree : Trees → Method → Option Matcher
  | [], _ => none
  | e :: ts, m => if e.1 == m then some e.2 else findTree ts m

/-- Models writing the updated tree back under its method (the entry API
of the HashMap): replaces the tree registered for the method, or appends
a new entry. -/
def setTree : Trees → Method → Matcher → Trees
  | [], m, t => [(m, t)]
  | e :: ts, m, t => if e.1 == m then (m, t) :: ts else e :: setTree ts m t

/-- One step of Router::new: inserts a single endpoint into the per-method
trees, starting from the empty tree when the method is new. -/
def insertEndpoint (ts : Trees) (e : Endpoint) : Except RouterError Trees :=
  match Matcher.insert ((findTree ts e.method).getD []) e.path e.controller with
  | Except.error ie => Except.error (RouterError.matchIt ie)
  | Except.ok t => Except.ok (setTree ts e.method t)

/-- Builds the per-method trees from the configured endpoints in input
order, failing on the first conflicting insert. -/
def buildTrees : Trees → List Endpoint → Except RouterError Trees
  | ts, [] => Except.ok ts
  | ts, e :: es =>
    match insertEndpoint ts e with
    | Except.error err => Except.error err
    | Except.ok ts2 => buildTrees ts2 es

/-- Models the Router struct from src/src/lib.rs: the per-method trees and
the registered handlers. -/
structure Router where
  trees : Trees
  handlers : List (String × Handler)

/-- Models Router::new from src/src/lib.rs, starting from the already
parsed configuration (opening and deserializing the file are outside the
modelled core). A freshly built router has no handlers. -/
def Router.new (config : Config) : Except RouterError Router :=
  match buildTrees [] config.endpoints with
  | Except.error e => Except.error e
  | Except.ok ts => Except.ok ⟨ts, []⟩

/-- Association lookup modelling HashMap get on the handler table. -/
def findHandler : List (String × Handler) → String → Option Handler
  | [], _ => none
  | e :: hs, c => if e.1 == c then some e.2 else findHandler hs c

/-- Models Router::register: the most recent registration under a name
wins. -/
def Router.register (r : Router) (controllerName : String) (h : Handler) : Router :=
  { r with handlers := (controllerName, h) :: r.handlers }

/-- The methods whose trees match the path, in tree order, modelling the
allowed-methods scan at the top of Router::route. -/
def allowedMethods (ts : Trees) (path : String) : List Method :=
  (ts.filter (fun e => (Matcher.lookup e.2 path).isSome)).map (fun e => e.1)

/-- Models Router::route from src/src/lib.rs up to (but not including) the
final conversion into the http Response; every branch of the source ends
by converting exactly this HttpResponse. -/
def routeHttp (r : Router) (req : Request) : HttpResponse :=
  let path := req.uri.path
  let allowed := allowedMethods r.trees path
  if !allowed.isEmpty && !(allowed.contains req.method) then
    (HttpResponse.new METHOD_NOT_ALLOWED "").add_header "allow"
      (String.intercalate ", " allowed)
  else
    match findTree r.trees req.method with
    | none => HttpResponse.new NOT_FOUND ""
    | some tree =>
      match Matcher.lookup tree path with
      | some (controllerName, params) =>
        match findHandler r.handlers controllerName with
        | some handler =>
          handler ⟨req.uri, req.method, req.headers, params, req.body⟩
        | none =>
          HttpResponse.new NOT_IMPLEMENTED
            ("Error: Handler for \x27" ++ controllerName ++ "\x27 is not implemented.")
      | none => HttpResponse.new NOT_FOUND ""

/-- Models Router::route from src/src/lib.rs: the dispatch logic followed
by the conversion of the produced HttpResponse into the returned http
Response. -/
def Router.route (r : Router) (req : Request) : Response :=
  intoResponse (routeHttp r req)

theorem intoResponse_eq (r : HttpResponse) :
    intoResponse r = ⟨r.status, r.headers, r.body⟩ := by
  unfold intoResponse buildResponse
  rw [dif_pos r.status.property]
  rfl

theorem buildResponse_eq (r : HttpResponse) :
    buildResponse r.status.val r.headers r.body = some (intoResponse r) := by
  rw [intoResponse_eq]
  unfold buildResponse
  rw [dif_pos r.status.property]

theorem findTree_mem {ts : Trees} {m : Method} {t : Matcher}
    (h : findTree ts m = some t) : (m, t) ∈ ts := by
  induction ts with
  | nil => simp [findTree] at h
  | cons e es ih =>
    rw [findTree] at h
    split at h
    · next hb =>
      have he : e.1 = m := eq_of_beq hb
      have ht : e.2 = t := Option.some.inj h
      have hpair : e = (m, t) := by
        calc e = (e.1, e.2) := rfl
        _ = (m, t) := by rw [he, ht]
      rw [← hpair]
      exact List.mem_cons_self e es
    · next hb => exact List.mem_cons_of_mem e (ih h)

theorem mem_allowedMethods {ts : Trees} {m : Method} {t : Matcher} {p : String}
    (hmem : (m, t) ∈ ts) (hl : (Matcher.lookup t p).isSome = true) :
    m ∈ allowedMethods ts p := by
  unfold allowedMethods
  exact List.mem_map.mpr ⟨(m, t), List.mem_filter.mpr ⟨hmem, hl⟩, rfl⟩

theorem contains_of_mem {xs : List Method} {a : Method} (h : a ∈ xs) :
    xs.contains a = true := by
  induction xs with
  | nil => cases h
  | cons x xs ih =>
    cases h with
    | head => simp [List.contains_cons]
    | tail _ hm =>
      simp [List.contains_cons]
      exact Or.inr hm

theorem isEmpty_false_of_ne_nil {xs : List Method} (h : xs ≠ []) :
    xs.isEmpty = false := by
  cases xs with
  | nil => exact absurd rfl h
  | cons x xs => rfl

theorem conflictsWith_of_structEq : ∀ {p q : List Seg},
    structEq p q = true → conflictsWith q p = true := by
  intro p
  induction p with
  | nil =>
    intro q h
    cases q with
    | nil => rfl
    | cons s q => cases s <;> simp [structEq] at h
  | cons s p ih =>
    intro q h
    cases q with
    | nil => cases s <;> simp [structEq] at h
    | cons s2 q =>
      cases s with
      | lit a =>
        cases s2 with
        | lit b =>
          simp only [structEq, Bool.and_eq_true, beq_iff_eq] at h
          obtain ⟨hab, hrest⟩ := h
          subst hab
          simp [conflictsWith, ih hrest]
        | param b => simp [structEq] at h
      | param a =>
        cases s2 with
        | lit b => simp [structEq] at h
        | param b =>
          simp only [structEq] at h
          simp only [conflictsWith, Bool.or_eq_true]
          exact Or.inr (ih h)

theorem mem_insertHeader (n v : String) (hs : HeaderMap) :
    (n, v) ∈ insertHeader n v hs := by
  induction hs with
  | nil => exact List.mem_singleton.mpr rfl
  | cons e es ih =>
    unfold insertHeader
    by_cases hb : (e.1 == n) = true
    · rw [if_pos hb]
      exact List.mem_cons_self _ _
    · rw [if_neg hb]
      exact List.mem_cons_of_mem e ih

/-- Claim C1: for a router built from the single entry (GET, /users), a
POST request for /users yields status 405 with Allow header "GET", and a
GET request for /unknown yields status 404. -/
theorem claim1_404_405_boundary :
    (Router.new ⟨[⟨"GET", "/users", "users_controller", "d"⟩]⟩).map Router.trees
      = Except.ok [("GET", [("/users", "users_controller")])] ∧
    Router.route ⟨[("GET", [("/users", "users_controller")])], []⟩
        ⟨⟨"/users"⟩, "POST", [], ""⟩
      = ⟨METHOD_NOT_ALLOWED, [("allow", "GET")], ""⟩ ∧
    Router.route ⟨[("GET", [("/users", "users_controller")])], []⟩
        ⟨⟨"/unknown"⟩, "GET", [], ""⟩
      = ⟨NOT_FOUND, [], ""⟩ :=
  ⟨rfl, rfl, rfl⟩

/-- Claim C2: after registering the pattern /a/:x/b for controller "c" and
a handler under "c", routing GET /a/123/b invokes that handler, which
receives exactly the parameter binding of "x" to "123". -/
theorem claim2_param_roundtrip (h : Handler) (hdrs : HeaderMap) (body : String) :
    (Router.new ⟨[⟨"GET", "/a/:x/b", "c", "d"⟩]⟩).map Router.trees
      = Except.ok [("GET", [("/a/:x/b", "c")])] ∧
    Router.route ⟨[("GET", [("/a/:x/b", "c")])], [("c", h)]⟩
        ⟨⟨"/a/123/b"⟩, "GET", hdrs, body⟩
      = intoResponse (h ⟨⟨"/a/123/b"⟩, "GET", hdrs, [("x", "123")], body⟩) :=
  ⟨rfl, rfl⟩

/-- Claim C3 counterexample: two conflicting configurations that differ in
the method and in the previously registered controller produce the
identical error value, so the conflict error reports neither the method
nor the previously registered controller - against the claim, it carries
only the conflicting pattern. -/
theorem claim3_counterexample :
    Router.new ⟨[⟨"GET", "/users", "c1", ""⟩, ⟨"GET", "/users", "c2", ""⟩]⟩
      = Except.error (RouterError.matchIt (InsertError.conflict "/users")) ∧
    Router.new ⟨[⟨"POST", "/users", "other1", ""⟩, ⟨"POST", "/users", "other2", ""⟩]⟩
      = Except.error (RouterError.matchIt (InsertError.conflict "/users")) :=
  ⟨rfl, rfl⟩

/-- Claim C3 (amended): building from two entries with the same method and
structurally equal patterns fails atomically - no router value is
produced and the result is the conflict error carrying the previously
registered path pattern (the error carries neither the method nor the
previously registered controller). -/
theorem claim3_conflict_atomic (m p1 p2 c1 c2 d1 d2 : String)
    (h : structEq (parsePath p1) (parsePath p2) = true) :
    Router.new ⟨[⟨m, p1, c1, d1⟩, ⟨m, p2, c2, d2⟩]⟩
      = Except.error (RouterError.matchIt (InsertError.conflict p1)) := by
  have hc : conflictsWith (parsePath p2) (parsePath p1) = true :=
    conflictsWith_of_structEq h
  simp [Router.new, buildTrees, insertEndpoint, Matcher.insert, findConflict,
    findTree, setTree, hc]

/-- Witness for claim C3 (amended): two structurally equal patterns with
different parameter names conflict and the build fails with the first
pattern reported. -/
theorem claim3_conflict_atomic_witness :
    structEq (parsePath "/users/:x") (parsePath "/users/:y") = true ∧
    Router.new ⟨[⟨"GET", "/users/:x", "c1", ""⟩, ⟨"GET", "/users/:y", "c2", ""⟩]⟩
      = Except.error (RouterError.matchIt (InsertError.conflict "/users/:x")) :=
  ⟨by decide,
   claim3_conflict_atomic "GET" "/users/:x" "/users/:y" "c1" "c2" "" "" (by decide)⟩

/-- Claim C4: when the path matches a route for the request's method but no
handler is registered under the matched controller name, route returns
status 501 and the body contains that controller name. -/
theorem claim4_handler_missing (r : Router) (req : Request) (t : Matcher)
    (c : String) (ps : List (String × String))
    (h1 : findTree r.trees req.method = some t)
    (h2 : Matcher.lookup t req.uri.path = some (c, ps))
    (h3 : findHandler r.handlers c = none) :
    (r.route req).status.val = 501 ∧
    ∃ pre suf, (r.route req).body = pre ++ c ++ suf := by
  have hmem : (req.method, t) ∈ r.trees := findTree_mem h1
  have hsome : (Matcher.lookup t req.uri.path).isSome = true := by
    rw [h2]; rfl
  have hmm : req.method ∈ allowedMethods r.trees req.uri.path :=
    mem_allowedMethods hmem hsome
  have hcont : (allowedMethods r.trees req.uri.path).contains req.method = true :=
    contains_of_mem hmm
  unfold Router.route routeHttp
  simp only [hcont, Bool.not_true, Bool.and_false, Bool.false_eq_true, if_false,
    h1, h2, h3, intoResponse_eq, HttpResponse.new]
  exact ⟨rfl, "Error: Handler for \x27", "\x27 is not implemented.", rfl⟩

/-- Witness for claim C4: a route bound to controller "missing" with no
handler registered yields 501 with the controller name in the body. -/
theorem claim4_handler_missing_witness :
    findTree [("GET", [("/users", "missing")])] "GET" = some [("/users", "missing")] ∧
    Matcher.lookup [("/users", "missing")] "/users" = some ("missing", []) ∧
    findHandler ([] : List (String × Handler)) "missing" = none ∧
    ((Router.route ⟨[("GET", [("/users", "missing")])], []⟩
        ⟨⟨"/users"⟩, "GET", [], ""⟩).status.val = 501 ∧
     ∃ pre suf, (Router.route ⟨[("GET", [("/users", "missing")])], []⟩
        ⟨⟨"/users"⟩, "GET", [], ""⟩).body = pre ++ "missing" ++ suf) :=
  ⟨rfl, rfl, rfl,
   claim4_handler_missing ⟨[("GET", [("/users", "missing")])], []⟩
     ⟨⟨"/users"⟩, "GET", [], ""⟩ [("/users", "missing")] "missing" [] rfl rfl rfl⟩

/-- Claim C5: when the path matches for the request's method and a handler
is registered under the matched controller name, route invokes that
handler on the original uri, method, headers and body enriched with the
captured parameters, and returns the handler's response with its status,
headers and body untouched. -/
theorem claim5_dispatch_verbatim (r : Router) (req : Request) (t : Matcher)
    (c : String) (ps : List (String × String)) (h : Handler)
    (h1 : findTree r.trees req.method = some t)
    (h2 : Matcher.lookup t req.uri.path = some (c, ps))
    (h3 : findHandler r.handlers c = some h) :
    r.route req =
      ⟨(h ⟨req.uri, req.method, req.headers, ps, req.body⟩).status,
       (h ⟨req.uri, req.method, req.headers, ps, req.body⟩).headers,
       (h ⟨req.uri, req.method, req.headers, ps, req.body⟩).body⟩ := by
  have hmem : (req.method, t) ∈ r.trees := findTree_mem h1
  have hsome : (Matcher.lookup t req.uri.path).isSome = true := by
    rw [h2]; rfl
  have hmm : req.method ∈ allowedMethods r.trees req.uri.path :=
    mem_allowedMethods hmem hsome
  have hcont : (allowedMethods r.trees req.uri.path).contains req.method = true :=
    contains_of_mem hmm
  unfold Router.route routeHttp
  simp only [hcont, Bool.not_true, Bool.and_false, Bool.false_eq_true, if_false,
    h1, h2, h3, intoResponse_eq]

/-- Witness for claim C5: a registered handler's response comes back with
its status, headers and body exactly as produced. -/
theorem claim5_dispatch_verbatim_witness :
    findTree [("GET", [("/users", "list")])] "GET" = some [("/users", "list")] ∧
    Matcher.lookup [("/users", "list")] "/users" = some ("list", []) ∧
    findHandler [("list", fun _ => ⟨⟨200, by decide⟩, [("x-demo", "1")], "ok"⟩)] "list"
      = some (fun _ => ⟨⟨200, by decide⟩, [("x-demo", "1")], "ok"⟩) ∧
    Router.route
        ⟨[("GET", [("/users", "list")])],
         [("list", fun _ => ⟨⟨200, by decide⟩, [("x-demo", "1")], "ok"⟩)]⟩
        ⟨⟨"/users"⟩, "GET", [], ""⟩
      = ⟨⟨200, by decide⟩, [("x-demo", "1")], "ok"⟩ :=
  ⟨rfl, rfl, rfl,
   claim5_dispatch_verbatim
     ⟨[("GET", [("/users", "list")])],
      [("list", fun _ => ⟨⟨200, by decide⟩, [("x-demo", "1")], "ok"⟩)]⟩
     ⟨⟨"/users"⟩, "GET", [], ""⟩ [("/users", "list")] "list" []
     (fun _ => ⟨⟨200, by decide⟩, [("x-demo", "1")], "ok"⟩) rfl rfl rfl⟩

/-- Claim C6: with both /users/me and /users/:id registered under GET for
distinct controllers, routing GET /users/me dispatches to the controller
of the literal pattern and binds no parameter, so id is not bound to
"me". -/
theorem claim6_literal_precedence (h1 h2 : Handler) (hdrs : HeaderMap) (body : String) :
    (Router.new ⟨[⟨"GET", "/users/me", "me_ctrl", "d1"⟩,
                  ⟨"GET", "/users/:id", "id_ctrl", "d2"⟩]⟩).map Router.trees
      = Except.ok [("GET", [("/users/me", "me_ctrl"), ("/users/:id", "id_ctrl")])] ∧
    Router.route
        ⟨[("GET", [("/users/me", "me_ctrl"), ("/users/:id", "id_ctrl")])],
         [("me_ctrl", h1), ("id_ctrl", h2)]⟩
        ⟨⟨"/users/me"⟩, "GET", hdrs, body⟩
      = intoResponse (h1 ⟨⟨"/users/me"⟩, "GET", hdrs, [], body⟩) :=
  ⟨rfl, rfl⟩

/-- Claim C7: when the methods whose trees match the path form a non-empty
list not containing the request's method, route answers 405 and the Allow
header is exactly those methods joined by commas, in the fixed tree order
of the router value - hence identical on every call against the same
router. -/
theorem claim7_method_not_allowed (r : Router) (req : Request)
    (h1 : allowedMethods r.trees req.uri.path ≠ [])
    (h2 : (allowedMethods r.trees req.uri.path).contains req.method = false)
    (h3 : isValidHeaderValueStr
        (String.intercalate ", " (allowedMethods r.trees req.uri.path)) = true) :
    r.route req =
      ⟨METHOD_NOT_ALLOWED,
       [("allow", String.intercalate ", " (allowedMethods r.trees req.uri.path))],
       ""⟩ := by
  have he : (allowedMethods r.trees req.uri.path).isEmpty = false :=
    isEmpty_false_of_ne_nil h1
  unfold Router.route routeHttp
  simp only [he, h2, Bool.not_false, Bool.and_self, if_true,
    HttpResponse.add_header, HttpResponse.new, h3, if_pos, insertHeader,
    intoResponse_eq]

/-- Witness for claim C7: with GET and POST trees matching /users, a DELETE
request yields 405 with Allow listing GET and POST in tree order. -/
theorem claim7_method_not_allowed_witness :
    allowedMethods [("GET", [("/users", "a")]), ("POST", [("/users", "b")])] "/users" ≠ [] ∧
    (allowedMethods [("GET", [("/users", "a")]), ("POST", [("/users", "b")])]
        "/users").contains "DELETE" = false ∧
    Router.route ⟨[("GET", [("/users", "a")]), ("POST", [("/users", "b")])], []⟩
        ⟨⟨"/users"⟩, "DELETE", [], ""⟩
      = ⟨METHOD_NOT_ALLOWED, [("allow", "GET, POST")], ""⟩ :=
  ⟨by decide, by decide,
   claim7_method_not_allowed
     ⟨[("GET", [("/users", "a")]), ("POST", [("/users", "b")])], []⟩
     ⟨⟨"/users"⟩, "DELETE", [], ""⟩ (by decide) (by decide) (by decide)⟩

/-- Claim C8: route is deterministic - for one router value, two requests
agreeing on method, path, headers and body produce equal responses. -/
theorem claim8_route_deterministic (r : Router) (a b : Request)
    (h1 : a.method = b.method) (h2 : a.uri = b.uri)
    (h3 : a.headers = b.headers) (h4 : a.body = b.body) :
    r.route a = r.route b := by
  cases a
  cases b
  cases h1
  cases h2
  cases h3
  cases h4
  rfl

/-- Witness for claim C8: identical concrete calls give identical
responses. -/
theorem claim8_route_deterministic_witness :
    Router.route ⟨[("GET", [("/u", "c")])], []⟩ ⟨⟨"/u"⟩, "GET", [("h", "1")], "b"⟩
      = Router.route ⟨[("GET", [("/u", "c")])], []⟩ ⟨⟨"/u"⟩, "GET", [("h", "1")], "b"⟩ :=
  claim8_route_deterministic ⟨[("GET", [("/u", "c")])], []⟩
    ⟨⟨"/u"⟩, "GET", [("h", "1")], "b"⟩ ⟨⟨"/u"⟩, "GET", [("h", "1")], "b"⟩
    rfl rfl rfl rfl

/-- Claim C9: route always yields a response - the checked builder behind
the unwrap of the response conversion succeeds for every status code and
header map an HttpResponse can carry, in particular for whatever the
dispatch produces, so the panic branch is unreachable. -/
theorem claim9_route_total (r : Router) (req : Request) (hr : HttpResponse) :
    buildResponse hr.status.val hr.headers hr.body = some (intoResponse hr) ∧
    buildResponse (routeHttp r req).status.val (routeHttp r req).headers
        (routeHttp r req).body = some (r.route req) :=
  ⟨buildResponse_eq hr, buildResponse_eq (routeHttp r req)⟩

/-- Claim C10: add_header leaves the response unchanged (and reports
nothing) when the value string is not a valid header value; for a valid
value it inserts exactly that header entry and leaves status and body
unchanged. -/
theorem claim10_add_header (r : HttpResponse) (name value : String) :
    (isValidHeaderValueStr value = false → r.add_header name value = r) ∧
    (isValidHeaderValueStr value = true →
       (r.add_header name value).status = r.status ∧
       (r.add_header name value).body = r.body ∧
       (r.add_header name value).headers = insertHeader name value r.headers ∧
       (name, value) ∈ (r.add_header name value).headers) := by
  constructor
  · intro hv
    simp [HttpResponse.add_header, hv]
  · intro hv
    unfold HttpResponse.add_header
    rw [if_pos hv]
    exact ⟨rfl, rfl, rfl, mem_insertHeader name value r.headers⟩

/-- Witness for claim C10: a value with a newline is rejected without any
change; a plain value is inserted with status and body preserved. -/
theorem claim10_add_header_witness :
    isValidHeaderValueStr "bad\nvalue" = false ∧
    HttpResponse.add_header ⟨⟨200, by decide⟩, [("x-a", "1")], "body"⟩ "x-b" "bad\nvalue"
      = ⟨⟨200, by decide⟩, [("x-a", "1")], "body"⟩ ∧
    isValidHeaderValueStr "good" = true ∧
    (HttpResponse.add_header ⟨⟨200, by decide⟩, [("x-a", "1")], "body"⟩ "x-b" "good").headers
      = insertHeader "x-b" "good" [("x-a", "1")] :=
  ⟨by decide,
   (claim10_add_header ⟨⟨200, by decide⟩, [("x-a", "1")], "body"⟩ "x-b" "bad\nvalue").1
     (by decide),
   by decide,
   ((claim10_add_header ⟨⟨200, by decide⟩, [("x-a", "1")], "body"⟩ "x-b" "good").2
     (by decide)).2.2.1⟩
